import Mathlib

/-!
Shallow embedding of `src/time_manager.c` (Psychloor/time_manager).

Modelling conventions:
* C `double` values are modelled as exact rationals (`ℚ`); the spec states all
  numeric claims "modulo floating-point slack", so the exact-arithmetic model is
  the intended level of abstraction.
* The monotonic time source (a function pointer sampled by `tm->now()`) is
  modelled by passing the sampled timestamp (`nanoseconds : ℤ`) as an explicit
  argument to the operations that sample it (`TmBeginFrame`, `TmReset`,
  `InitTimeManager`).
* `fmod` is C `fmod` (remainder with truncated division), `llround` is C
  `llround` (round half away from zero), `DBL_EPSILON` is `2⁻⁵²`.
* `size_t` fields hold only small non-negative values here and are modelled as
  `ℕ`; the C cast `(size_t)stepsD` of the non-negative step count is `Int.toNat`.
-/

namespace TimeManagerModel

/-- `HighResTimeT` from `time_utils.h`: a monotonic timestamp in nanoseconds. -/
structure HighResTimeT where
  nanoseconds : ℤ
deriving DecidableEq, Repr

/-- The `struct TimeManager` state (time_manager.c lines 12–37); the `now`
function pointer is externalized (see module header). -/
structure TimeManager where
  physicsHz : ℕ
  physicsTimeStep : ℚ
  maxFrameTime : ℚ
  maxPhysicsSteps : ℕ
  accumulator : ℚ
  lastTime : HighResTimeT
  firstFrame : Bool
  timeScale : ℚ
  timeScaleBeforePause : ℚ
  physicsStepsThisFrame : ℕ
  averageFps : ℚ
  fpsAccumulator : ℚ
  fpsFrameCount : ℕ
deriving DecidableEq, Repr

/-- `TimeManagerConfig` from the public header. -/
structure TimeManagerConfig where
  physicsHz : ℕ
  maxPhysicsSteps : ℕ
  maxFrameTime : ℚ
deriving DecidableEq, Repr

/-- `TmDefaultConfig` from the public header. -/
def TmDefaultConfig : TimeManagerConfig :=
  { physicsHz := 60, maxPhysicsSteps := 5, maxFrameTime := 1/4 }

/-- `FrameTimingData` from the public header. -/
structure FrameTimingData where
  physicsSteps : ℕ
  fixedTimestep : ℚ
  interpolationAlpha : ℚ
  frameTime : ℚ
  lagging : Bool
  rawFrameTime : ℚ
  unscaledFrameTime : ℚ
  currentTimeScale : ℚ
deriving DecidableEq, Repr

/-- C truncation toward zero of a rational, used by `fmod`. -/
def truncQ (q : ℚ) : ℤ := if 0 ≤ q then ⌊q⌋ else ⌈q⌉

/-- C `fmod x y = x - trunc (x / y) * y` (exact-arithmetic model). -/
def fmod (x y : ℚ) : ℚ := x - y * (truncQ (x / y) : ℚ)

/-- C `llround` (round half away from zero), exact-arithmetic model. -/
def llroundQ (x : ℚ) : ℤ := if 0 ≤ x then ⌊x + 1/2⌋ else ⌈x - 1/2⌉

/-- `DBL_EPSILON` from `<float.h>`. -/
def dblEpsilon : ℚ := 1 / 2 ^ 52

/-- The `1e-12` epsilon added before the floor in `TmBeginFrame` (line 138). -/
def stepEpsilon : ℚ := 1 / 1000000000000

/-- `Clamp` (time_manager.c lines 39–42): `fmax(fmin(x, max), min)`. -/
def Clamp (x lo hi : ℚ) : ℚ := max (min x hi) lo

/-- `UpdateFpsStats` (time_manager.c lines 44–55). -/
def UpdateFpsStats (tm : TimeManager) (frameTime : ℚ) : TimeManager :=
  let acc := tm.fpsAccumulator + frameTime
  let cnt := tm.fpsFrameCount + 1
  if 1 ≤ acc then
    { tm with averageFps := (cnt : ℚ) / acc, fpsAccumulator := 0, fpsFrameCount := 0 }
  else
    { tm with fpsAccumulator := acc, fpsFrameCount := cnt }

/-- `InitTimeManager` (time_manager.c lines 57–79); `t0` is the seed sample
`tm->now()` taken at line 72. -/
def InitTimeManager (config : TimeManagerConfig) (t0 : HighResTimeT) : TimeManager :=
  { physicsHz := config.physicsHz
  , physicsTimeStep := 1 / (config.physicsHz : ℚ)
  , maxFrameTime := config.maxFrameTime
  , maxPhysicsSteps := config.maxPhysicsSteps
  , timeScale := 1
  , accumulator := 0
  , lastTime := t0
  , firstFrame := true
  , physicsStepsThisFrame := 0
  , averageFps := 0
  , fpsAccumulator := 0
  , fpsFrameCount := 0
  , timeScaleBeforePause := 1 }

/-- Line 132: `deltaTime = fmax((currentTime - lastTime) / 1e9, 0.0)`. -/
def deltaTimeOf (tm : TimeManager) (currentTime : HighResTimeT) : ℚ :=
  max (((currentTime.nanoseconds - tm.lastTime.nanoseconds : ℤ) : ℚ) / 1000000000) 0

/-- Line 133: `cappedDeltaTime = fmin(deltaTime, maxFrameTime)`. -/
def cappedDeltaOf (tm : TimeManager) (currentTime : HighResTimeT) : ℚ :=
  min (deltaTimeOf tm currentTime) tm.maxFrameTime

/-- Line 134: `scaledFrameTime = cappedDeltaTime * timeScale`. -/
def scaledDeltaOf (tm : TimeManager) (currentTime : HighResTimeT) : ℚ :=
  cappedDeltaOf tm currentTime * tm.timeScale

/-- Line 136: the accumulator right after `accumulator += scaledFrameTime`. -/
def accAfterAdd (tm : TimeManager) (currentTime : HighResTimeT) : ℚ :=
  tm.accumulator + scaledDeltaOf tm currentTime

/-- Line 138: `stepsD = floor((accumulator + 1e-12) / physicsTimeStep)`. -/
def stepsDOf (tm : TimeManager) (currentTime : HighResTimeT) : ℤ :=
  ⌊(accAfterAdd tm currentTime + stepEpsilon) / tm.physicsTimeStep⌋

/-- Line 139: `lagging = stepsD > (double)maxPhysicsSteps`. -/
def laggingOf (tm : TimeManager) (currentTime : HighResTimeT) : Bool :=
  decide ((tm.maxPhysicsSteps : ℤ) < stepsDOf tm currentTime)

/-- Line 140: `steps = lagging ? maxPhysicsSteps : (size_t)stepsD`. -/
def stepsOf (tm : TimeManager) (currentTime : HighResTimeT) : ℕ :=
  if laggingOf tm currentTime then tm.maxPhysicsSteps else (stepsDOf tm currentTime).toNat

/-- Lines 143–147: `remainder = fmod(accumulator, physicsTimeStep)`,
re-normalized to be non-negative. -/
def remainderOf (tm : TimeManager) (currentTime : HighResTimeT) : ℚ :=
  let r := fmod (accAfterAdd tm currentTime) tm.physicsTimeStep
  if r < 0 then r + tm.physicsTimeStep else r

/-- Line 152: `alpha = Clamp(accumulator / physicsTimeStep, 0.0, 1.0)` (with
`accumulator` already holding the remainder). -/
def alphaOf (tm : TimeManager) (currentTime : HighResTimeT) : ℚ :=
  Clamp (remainderOf tm currentTime / tm.physicsTimeStep) 0 1

/-- The state after a steady-state `TmBeginFrame` (lines 131–154): `lastTime`,
`accumulator` and `physicsStepsThisFrame` updated, then `UpdateFpsStats` folds
the raw delta into the FPS window. -/
def steadyState (tm : TimeManager) (currentTime : HighResTimeT) : TimeManager :=
  UpdateFpsStats
    { tm with lastTime := currentTime
            , accumulator := remainderOf tm currentTime
            , physicsStepsThisFrame := stepsOf tm currentTime }
    (deltaTimeOf tm currentTime)

/-- The snapshot returned by a steady-state `TmBeginFrame` (lines 156–165). -/
def steadySnapshot (tm : TimeManager) (currentTime : HighResTimeT) : FrameTimingData :=
  { physicsSteps := stepsOf tm currentTime
  , fixedTimestep := tm.physicsTimeStep
  , interpolationAlpha := alphaOf tm currentTime
  , frameTime := scaledDeltaOf tm currentTime
  , lagging := laggingOf tm currentTime
  , rawFrameTime := deltaTimeOf tm currentTime
  , unscaledFrameTime := cappedDeltaOf tm currentTime
  , currentTimeScale := tm.timeScale }

/-- The snapshot returned by the first-frame branch (lines 118–127). -/
def firstSnapshot (tm : TimeManager) : FrameTimingData :=
  { physicsSteps := 0
  , fixedTimestep := tm.physicsTimeStep
  , interpolationAlpha := 0
  , frameTime := 0
  , lagging := false
  , rawFrameTime := 0
  , unscaledFrameTime := 0
  , currentTimeScale := tm.timeScale }

/-- `TmBeginFrame` (time_manager.c lines 111–166); `currentTime` is the sample
the C code obtains from `tm->now()` (line 117 resp. line 131). Returns the
snapshot together with the updated state. -/
def TmBeginFrame (tm : TimeManager) (currentTime : HighResTimeT) :
    FrameTimingData × TimeManager :=
  if tm.firstFrame then
    (firstSnapshot tm, { tm with firstFrame := false, lastTime := currentTime })
  else
    (steadySnapshot tm currentTime, steadyState tm currentTime)

/-- `TmSetPhysicsHz` (lines 168–178). -/
def TmSetPhysicsHz (tm : TimeManager) (physicsHz : ℕ) : TimeManager :=
  if physicsHz = 0 then tm
  else { tm with physicsHz := physicsHz, physicsTimeStep := 1 / (physicsHz : ℚ) }

/-- `TmSetPhysicsTimeStep` (lines 180–197). -/
def TmSetPhysicsTimeStep (tm : TimeManager) (physicsTimeStep : ℚ) : TimeManager :=
  if physicsTimeStep ≤ 0 then tm
  else
    let hz := (llroundQ (1 / physicsTimeStep)).toNat
    { tm with physicsTimeStep := physicsTimeStep
            , physicsHz := if hz = 0 then 1 else hz }

/-- `TmSetMaxFrameTime` (lines 199–204). -/
def TmSetMaxFrameTime (tm : TimeManager) (maxFrameTime : ℚ) : TimeManager :=
  { tm with maxFrameTime := max maxFrameTime dblEpsilon }

/-- `TmSetMaxPhysicsSteps` (lines 206–210). -/
def TmSetMaxPhysicsSteps (tm : TimeManager) (maxPhysicsSteps : ℕ) : TimeManager :=
  { tm with maxPhysicsSteps := if 0 < maxPhysicsSteps then maxPhysicsSteps else 1 }

/-- `TmSetTimeScale` (lines 212–216). -/
def TmSetTimeScale (tm : TimeManager) (timeScale : ℚ) : TimeManager :=
  { tm with timeScale := if timeScale < 0 then 0 else timeScale }

/-- `TmReset` (lines 274–285); `t` is the sample `tm->now()` taken at line 279. -/
def TmReset (tm : TimeManager) (t : HighResTimeT) : TimeManager :=
  { tm with firstFrame := true
          , accumulator := 0
          , lastTime := t
          , physicsStepsThisFrame := 0
          , fpsAccumulator := 0
          , fpsFrameCount := 0
          , timeScale := 1
          , averageFps := 0 }

/-- `TmPause` (lines 287–292). -/
def TmPause (tm : TimeManager) : TimeManager :=
  { tm with timeScaleBeforePause := tm.timeScale, timeScale := 0 }

/-- `TmResume` (lines 294–298). -/
def TmResume (tm : TimeManager) : TimeManager :=
  { tm with timeScale := tm.timeScaleBeforePause }

/-- `TmIsPaused` (lines 300–304): `fabs(timeScale) <= DBL_EPSILON`. -/
def TmIsPaused (tm : TimeManager) : Bool :=
  decide (|tm.timeScale| ≤ dblEpsilon)

/-! ### Concrete clocks used as witnesses and counterexamples -/

/-- A steady-state clock at 100 Hz (`physicsTimeStep = 0.01`) with
`maxPhysicsSteps = 2`, an empty accumulator, `timeScale = 1` and
`lastTime = 0` ns; this is the configuration of the spec's lag-capping
scenario after its first call. -/
def tmBasic : TimeManager :=
  { physicsHz := 100
  , physicsTimeStep := 1/100
  , maxFrameTime := 1/4
  , maxPhysicsSteps := 2
  , accumulator := 0
  , lastTime := ⟨0⟩
  , firstFrame := false
  , timeScale := 1
  , timeScaleBeforePause := 1
  , physicsStepsThisFrame := 0
  , averageFps := 0
  , fpsAccumulator := 0
  , fpsFrameCount := 0 }

/-! ### Bounds for the normalized `fmod` remainder -/

lemma fmod_bounds (x y : ℚ) (hy : 0 < y) : -y < fmod x y ∧ fmod x y < y := by
  have hy' : y ≠ 0 := hy.ne'
  have hxq : x = x / y * y := (div_mul_cancel₀ x hy').symm
  unfold fmod truncQ
  by_cases h : 0 ≤ x / y
  · rw [if_pos h]
    have h1 : (⌊x / y⌋ : ℚ) ≤ x / y := Int.floor_le _
    have h2 : x / y < ⌊x / y⌋ + 1 := Int.lt_floor_add_one _
    constructor <;> nlinarith
  · rw [if_neg h]
    have h1 : x / y ≤ (⌈x / y⌉ : ℚ) := Int.le_ceil _
    have h2 : (⌈x / y⌉ : ℚ) < x / y + 1 := Int.ceil_lt_add_one _
    constructor <;> nlinarith

lemma fmod_nonneg_of_nonneg (x y : ℚ) (hx : 0 ≤ x) (hy : 0 < y) : 0 ≤ fmod x y := by
  have hy' : y ≠ 0 := hy.ne'
  have hxq : x = x / y * y := (div_mul_cancel₀ x hy').symm
  have h : 0 ≤ x / y := div_nonneg hx hy.le
  unfold fmod truncQ
  rw [if_pos h]
  have h1 : (⌊x / y⌋ : ℚ) ≤ x / y := Int.floor_le _
  nlinarith

lemma remainderOf_nonneg (tm : TimeManager) (t : HighResTimeT)
    (hts : 0 < tm.physicsTimeStep) : 0 ≤ remainderOf tm t := by
  unfold remainderOf
  by_cases h : fmod (accAfterAdd tm t) tm.physicsTimeStep < 0
  · rw [if_pos h]
    have := (fmod_bounds (accAfterAdd tm t) tm.physicsTimeStep hts).1
    linarith
  · rw [if_neg h]
    exact not_lt.mp h

lemma remainderOf_lt (tm : TimeManager) (t : HighResTimeT)
    (hts : 0 < tm.physicsTimeStep) : remainderOf tm t < tm.physicsTimeStep := by
  unfold remainderOf
  by_cases h : fmod (accAfterAdd tm t) tm.physicsTimeStep < 0
  · rw [if_pos h]
    linarith
  · rw [if_neg h]
    exact (fmod_bounds (accAfterAdd tm t) tm.physicsTimeStep hts).2

/-! ### Projection helpers for `TmBeginFrame` -/

lemma beginFrame_steady (tm : TimeManager) (t : HighResTimeT)
    (h : tm.firstFrame = false) :
    TmBeginFrame tm t = (steadySnapshot tm t, steadyState tm t) := by
  simp [TmBeginFrame, h]

lemma steadyState_accumulator (tm : TimeManager) (t : HighResTimeT) :
    (steadyState tm t).accumulator = remainderOf tm t := by
  unfold steadyState UpdateFpsStats
  dsimp only
  split <;> rfl

lemma stepsOf_le_max (tm : TimeManager) (t : HighResTimeT) :
    stepsOf tm t ≤ tm.maxPhysicsSteps := by
  unfold stepsOf
  by_cases h : laggingOf tm t = true
  · rw [if_pos h]
  · rw [if_neg h]
    have h' : ¬ ((tm.maxPhysicsSteps : ℤ) < stepsDOf tm t) := by
      simpa [laggingOf] using h
    exact Int.toNat_le.mpr (not_lt.mp h')

lemma alphaOf_nonneg (tm : TimeManager) (t : HighResTimeT) : 0 ≤ alphaOf tm t :=
  le_max_right _ _

lemma alphaOf_le_one (tm : TimeManager) (t : HighResTimeT) : alphaOf tm t ≤ 1 :=
  max_le (min_le_right _ _) zero_le_one

/-! ### C1 -/

/-- C1: for every validly configured clock (positive physics time step) and
every steady-state (non-first) `TmBeginFrame` call, afterwards the accumulator
satisfies `0 ≤ accumulator < physicsTimeStep` (exactly — no slack is even
needed in exact arithmetic), the returned `physicsSteps` is at most
`maxPhysicsSteps`, and the returned `interpolationAlpha` lies in `[0, 1]`. -/
theorem beginFrame_steady_invariants (tm : TimeManager) (t : HighResTimeT)
    (hfirst : tm.firstFrame = false) (hts : 0 < tm.physicsTimeStep) :
    0 ≤ (TmBeginFrame tm t).2.accumulator ∧
    (TmBeginFrame tm t).2.accumulator < tm.physicsTimeStep ∧
    (TmBeginFrame tm t).1.physicsSteps ≤ tm.maxPhysicsSteps ∧
    0 ≤ (TmBeginFrame tm t).1.interpolationAlpha ∧
    (TmBeginFrame tm t).1.interpolationAlpha ≤ 1 := by
  rw [beginFrame_steady tm t hfirst]
  refine ⟨?_, ?_, ?_, ?_, ?_⟩
  · rw [steadyState_accumulator]
    exact remainderOf_nonneg tm t hts
  · rw [steadyState_accumulator]
    exact remainderOf_lt tm t hts
  · exact stepsOf_le_max tm t
  · exact alphaOf_nonneg tm t
  · exact alphaOf_le_one tm t

/-- C1 witness: the invariants instantiated at the concrete clock `tmBasic`
and a call 50 ms later. -/
theorem beginFrame_steady_invariants_witness :
    0 ≤ (TmBeginFrame tmBasic ⟨50000000⟩).2.accumulator ∧
    (TmBeginFrame tmBasic ⟨50000000⟩).2.accumulator < tmBasic.physicsTimeStep ∧
    (TmBeginFrame tmBasic ⟨50000000⟩).1.physicsSteps ≤ tmBasic.maxPhysicsSteps ∧
    0 ≤ (TmBeginFrame tmBasic ⟨50000000⟩).1.interpolationAlpha ∧
    (TmBeginFrame tmBasic ⟨50000000⟩).1.interpolationAlpha ≤ 1 :=
  beginFrame_steady_invariants tmBasic ⟨50000000⟩ rfl (by norm_num [tmBasic])

/-! ### C3 -/

/-- C3: the first `TmBeginFrame` call after construction or after `TmReset`
returns a zeroed snapshot (zero steps, zero frame times, zero alpha, not
lagging) regardless of the time-source sample, re-samples the time source into
`lastTime`, and clears the first-call flag; `InitTimeManager` and `TmReset`
both put the clock in that first-call state. -/
theorem beginFrame_first_call (tm : TimeManager) (t t0 : HighResTimeT)
    (cfg : TimeManagerConfig) (hfirst : tm.firstFrame = true) :
    (TmBeginFrame tm t).1.physicsSteps = 0 ∧
    (TmBeginFrame tm t).1.frameTime = 0 ∧
    (TmBeginFrame tm t).1.rawFrameTime = 0 ∧
    (TmBeginFrame tm t).1.unscaledFrameTime = 0 ∧
    (TmBeginFrame tm t).1.interpolationAlpha = 0 ∧
    (TmBeginFrame tm t).1.lagging = false ∧
    (TmBeginFrame tm t).1.currentTimeScale = tm.timeScale ∧
    (TmBeginFrame tm t).2.lastTime = t ∧
    (TmBeginFrame tm t).2.firstFrame = false ∧
    (InitTimeManager cfg t0).firstFrame = true ∧
    (TmReset tm t0).firstFrame = true := by
  simp [TmBeginFrame, hfirst, firstSnapshot, InitTimeManager, TmReset]

/-- C3 witness: the freshly constructed default clock, stepped 2 s later. -/
theorem beginFrame_first_call_witness :
    (TmBeginFrame (InitTimeManager TmDefaultConfig ⟨0⟩) ⟨2000000000⟩).1.physicsSteps = 0 ∧
    (TmBeginFrame (InitTimeManager TmDefaultConfig ⟨0⟩) ⟨2000000000⟩).1.frameTime = 0 ∧
    (TmBeginFrame (InitTimeManager TmDefaultConfig ⟨0⟩) ⟨2000000000⟩).1.rawFrameTime = 0 ∧
    (TmBeginFrame (InitTimeManager TmDefaultConfig ⟨0⟩) ⟨2000000000⟩).1.unscaledFrameTime = 0 ∧
    (TmBeginFrame (InitTimeManager TmDefaultConfig ⟨0⟩) ⟨2000000000⟩).1.interpolationAlpha = 0 ∧
    (TmBeginFrame (InitTimeManager TmDefaultConfig ⟨0⟩) ⟨2000000000⟩).1.lagging = false ∧
    (TmBeginFrame (InitTimeManager TmDefaultConfig ⟨0⟩) ⟨2000000000⟩).1.currentTimeScale =
      (InitTimeManager TmDefaultConfig ⟨0⟩).timeScale ∧
    (TmBeginFrame (InitTimeManager TmDefaultConfig ⟨0⟩) ⟨2000000000⟩).2.lastTime = ⟨2000000000⟩ ∧
    (TmBeginFrame (InitTimeManager TmDefaultConfig ⟨0⟩) ⟨2000000000⟩).2.firstFrame = false ∧
    (InitTimeManager TmDefaultConfig ⟨0⟩).firstFrame = true ∧
    (TmReset (InitTimeManager TmDefaultConfig ⟨0⟩) ⟨0⟩).firstFrame = true :=
  beginFrame_first_call (InitTimeManager TmDefaultConfig ⟨0⟩) ⟨2000000000⟩ ⟨0⟩
    TmDefaultConfig rfl

/-! ### C4 -/

lemma tmBasic_stepsD : stepsDOf tmBasic ⟨50000000⟩ = 5 := by
  unfold stepsDOf accAfterAdd scaledDeltaOf cappedDeltaOf deltaTimeOf stepEpsilon tmBasic
  norm_num [max_def, min_def]

lemma tmBasic_lagging : laggingOf tmBasic ⟨50000000⟩ = true := by
  unfold laggingOf
  rw [tmBasic_stepsD]
  decide

lemma tmBasic_steps : stepsOf tmBasic ⟨50000000⟩ = 2 := by
  unfold stepsOf
  rw [tmBasic_lagging]
  rfl

/-- C4: in steady state the returned `lagging` flag is true exactly when the
floored (epsilon-adjusted) step candidate exceeds `maxPhysicsSteps`, and the
returned `physicsSteps` is `maxPhysicsSteps` when lagging and the candidate
otherwise; concretely, at time step 0.01 s and `maxPhysicsSteps = 2`, a
post-first call with 50 ms elapsed returns `physicsSteps = 2`, `lagging`. -/
theorem beginFrame_lagging_cap (tm : TimeManager) (t : HighResTimeT)
    (hfirst : tm.firstFrame = false) :
    ((TmBeginFrame tm t).1.lagging = true ↔
      (tm.maxPhysicsSteps : ℤ) <
        ⌊(accAfterAdd tm t + stepEpsilon) / tm.physicsTimeStep⌋) ∧
    (TmBeginFrame tm t).1.physicsSteps =
      (if (TmBeginFrame tm t).1.lagging then tm.maxPhysicsSteps
       else (⌊(accAfterAdd tm t + stepEpsilon) / tm.physicsTimeStep⌋).toNat) ∧
    (TmBeginFrame tmBasic ⟨50000000⟩).1.physicsSteps = 2 ∧
    (TmBeginFrame tmBasic ⟨50000000⟩).1.lagging = true := by
  rw [beginFrame_steady tm t hfirst, beginFrame_steady tmBasic ⟨50000000⟩ rfl]
  refine ⟨?_, rfl, ?_, ?_⟩
  · show laggingOf tm t = true ↔ _
    simp [laggingOf, stepsDOf]
  · show stepsOf tmBasic ⟨50000000⟩ = 2
    exact tmBasic_steps
  · show laggingOf tmBasic ⟨50000000⟩ = true
    exact tmBasic_lagging

/-- C4 witness: the lag-capping characterization instantiated at `tmBasic`
with a call 50 ms later. -/
theorem beginFrame_lagging_cap_witness :
    (((TmBeginFrame tmBasic ⟨50000000⟩).1.lagging = true ↔
      (tmBasic.maxPhysicsSteps : ℤ) <
        ⌊(accAfterAdd tmBasic ⟨50000000⟩ + stepEpsilon) / tmBasic.physicsTimeStep⌋) ∧
    (TmBeginFrame tmBasic ⟨50000000⟩).1.physicsSteps =
      (if (TmBeginFrame tmBasic ⟨50000000⟩).1.lagging then tmBasic.maxPhysicsSteps
       else (⌊(accAfterAdd tmBasic ⟨50000000⟩ + stepEpsilon) / tmBasic.physicsTimeStep⌋).toNat) ∧
    (TmBeginFrame tmBasic ⟨50000000⟩).1.physicsSteps = 2 ∧
    (TmBeginFrame tmBasic ⟨50000000⟩).1.lagging = true) :=
  beginFrame_lagging_cap tmBasic ⟨50000000⟩ rfl

/-! ### C5 -/

/-- `tmBasic` with the spec's frame-time cap `maxFrameTime = 0.10`. -/
def tmCap : TimeManager := { tmBasic with maxFrameTime := 1/10 }

/-- C5: every steady-state snapshot reports `rawFrameTime` as the unclamped
non-negative measured delta, `unscaledFrameTime = min(rawFrameTime,
maxFrameTime)` and `frameTime = unscaledFrameTime * timeScale`; concretely,
with `maxFrameTime = 0.10` and `timeScale = 1`, a call with 1.5 s elapsed
returns `rawFrameTime = 1.5`, `unscaledFrameTime = 0.10`, `frameTime = 0.10`
(exact in this model, `≈` under floating point). -/
theorem beginFrame_frame_times (tm : TimeManager) (t : HighResTimeT)
    (hfirst : tm.firstFrame = false) :
    ((TmBeginFrame tm t).1.rawFrameTime =
        max (((t.nanoseconds - tm.lastTime.nanoseconds : ℤ) : ℚ) / 1000000000) 0 ∧
     (TmBeginFrame tm t).1.unscaledFrameTime =
        min ((TmBeginFrame tm t).1.rawFrameTime) tm.maxFrameTime ∧
     (TmBeginFrame tm t).1.frameTime =
        (TmBeginFrame tm t).1.unscaledFrameTime * tm.timeScale) ∧
    ((TmBeginFrame tmCap ⟨1500000000⟩).1.rawFrameTime = 3/2 ∧
     (TmBeginFrame tmCap ⟨1500000000⟩).1.unscaledFrameTime = 1/10 ∧
     (TmBeginFrame tmCap ⟨1500000000⟩).1.frameTime = 1/10) := by
  rw [beginFrame_steady tm t hfirst, beginFrame_steady tmCap ⟨1500000000⟩ rfl]
  refine ⟨⟨rfl, rfl, rfl⟩, ?_, ?_, ?_⟩
  · show deltaTimeOf tmCap ⟨1500000000⟩ = 3/2
    unfold deltaTimeOf tmCap tmBasic
    norm_num [max_def]
  · show cappedDeltaOf tmCap ⟨1500000000⟩ = 1/10
    unfold cappedDeltaOf deltaTimeOf tmCap tmBasic
    norm_num [max_def, min_def]
  · show scaledDeltaOf tmCap ⟨1500000000⟩ = 1/10
    unfold scaledDeltaOf cappedDeltaOf deltaTimeOf tmCap tmBasic
    norm_num [max_def, min_def]

/-- C5 witness: the frame-time decomposition instantiated at `tmCap` with a
call 1.5 s later. -/
theorem beginFrame_frame_times_witness :
    (((TmBeginFrame tmCap ⟨1500000000⟩).1.rawFrameTime =
        max ((((1500000000 : ℤ) - tmCap.lastTime.nanoseconds : ℤ) : ℚ) / 1000000000) 0 ∧
     (TmBeginFrame tmCap ⟨1500000000⟩).1.unscaledFrameTime =
        min ((TmBeginFrame tmCap ⟨1500000000⟩).1.rawFrameTime) tmCap.maxFrameTime ∧
     (TmBeginFrame tmCap ⟨1500000000⟩).1.frameTime =
        (TmBeginFrame tmCap ⟨1500000000⟩).1.unscaledFrameTime * tmCap.timeScale) ∧
    ((TmBeginFrame tmCap ⟨1500000000⟩).1.rawFrameTime = 3/2 ∧
     (TmBeginFrame tmCap ⟨1500000000⟩).1.unscaledFrameTime = 1/10 ∧
     (TmBeginFrame tmCap ⟨1500000000⟩).1.frameTime = 1/10)) :=
  beginFrame_frame_times tmCap ⟨1500000000⟩ rfl

/-! ### C6 -/

/-- C6: `TmSetPhysicsHz` with a positive rate `R` sets `physicsHz = R` and
`physicsTimeStep = 1/R` (zero is a no-op); `TmSetPhysicsTimeStep` with a
positive step `T` sets `physicsTimeStep = T` and `physicsHz = round(1/T)`
floored at a minimum of 1 (a non-positive `T` is a no-op). -/
theorem set_rate_timestep_roundtrip (tm : TimeManager) (r : ℕ) (ts : ℚ)
    (hr : 0 < r) (hts : 0 < ts) :
    (TmSetPhysicsHz tm r).physicsHz = r ∧
    (TmSetPhysicsHz tm r).physicsTimeStep = 1 / (r : ℚ) ∧
    TmSetPhysicsHz tm 0 = tm ∧
    (TmSetPhysicsTimeStep tm ts).physicsTimeStep = ts ∧
    (TmSetPhysicsTimeStep tm ts).physicsHz = max 1 (llroundQ (1 / ts)).toNat ∧
    (∀ u : ℚ, u ≤ 0 → TmSetPhysicsTimeStep tm u = tm) := by
  have hr' : r ≠ 0 := hr.ne'
  have hts' : ¬ ts ≤ 0 := not_le.mpr hts
  refine ⟨?_, ?_, ?_, ?_, ?_, ?_⟩
  · simp [TmSetPhysicsHz, hr']
  · simp [TmSetPhysicsHz, hr']
  · simp [TmSetPhysicsHz]
  · simp [TmSetPhysicsTimeStep, hts']
  · simp only [TmSetPhysicsTimeStep, hts', if_false]
    rcases Nat.eq_zero_or_pos (llroundQ (1 / ts)).toNat with h | h
    · rw [if_pos h, h]
      simp
    · rw [if_neg h.ne']
      omega
  · intro u hu
    simp [TmSetPhysicsTimeStep, hu]

/-- C6 witness: rate 60 Hz and step 0.01 s on the concrete default clock. -/
theorem set_rate_timestep_roundtrip_witness :
    ((TmSetPhysicsHz (InitTimeManager TmDefaultConfig ⟨0⟩) 60).physicsHz = 60 ∧
    (TmSetPhysicsHz (InitTimeManager TmDefaultConfig ⟨0⟩) 60).physicsTimeStep = 1 / (60 : ℚ) ∧
    TmSetPhysicsHz (InitTimeManager TmDefaultConfig ⟨0⟩) 0 = InitTimeManager TmDefaultConfig ⟨0⟩ ∧
    (TmSetPhysicsTimeStep (InitTimeManager TmDefaultConfig ⟨0⟩) (1/100)).physicsTimeStep = 1/100 ∧
    (TmSetPhysicsTimeStep (InitTimeManager TmDefaultConfig ⟨0⟩) (1/100)).physicsHz =
      max 1 (llroundQ (1 / (1/100 : ℚ))).toNat ∧
    (∀ u : ℚ, u ≤ 0 →
      TmSetPhysicsTimeStep (InitTimeManager TmDefaultConfig ⟨0⟩) u =
        InitTimeManager TmDefaultConfig ⟨0⟩)) :=
  set_rate_timestep_roundtrip (InitTimeManager TmDefaultConfig ⟨0⟩) 60 (1/100)
    (by decide) (by norm_num)

/-! ### C7 -/

/-- C7: `TmPause` immediately followed by `TmResume` restores `timeScale`
to its pre-pause value exactly. -/
theorem pause_resume_restores_scale (tm : TimeManager) :
    (TmResume (TmPause tm)).timeScale = tm.timeScale := rfl

/-! ### C8 -/

/-- C8: `TmReset` sets `firstFrame`, zeroes the accumulator, the FPS window
(duration and count), `averageFps` and the step count, resets `timeScale` to 1
and re-seeds `lastTime` from the time source, while leaving the configuration
fields (`physicsHz`, `physicsTimeStep`, `maxFrameTime`, `maxPhysicsSteps`)
unchanged. -/
theorem reset_effect (tm : TimeManager) (t : HighResTimeT) :
    (TmReset tm t).firstFrame = true ∧
    (TmReset tm t).accumulator = 0 ∧
    (TmReset tm t).fpsAccumulator = 0 ∧
    (TmReset tm t).fpsFrameCount = 0 ∧
    (TmReset tm t).averageFps = 0 ∧
    (TmReset tm t).physicsStepsThisFrame = 0 ∧
    (TmReset tm t).timeScale = 1 ∧
    (TmReset tm t).lastTime = t ∧
    (TmReset tm t).physicsHz = tm.physicsHz ∧
    (TmReset tm t).physicsTimeStep = tm.physicsTimeStep ∧
    (TmReset tm t).maxFrameTime = tm.maxFrameTime ∧
    (TmReset tm t).maxPhysicsSteps = tm.maxPhysicsSteps :=
  ⟨rfl, rfl, rfl, rfl, rfl, rfl, rfl, rfl, rfl, rfl, rfl, rfl⟩

/-! ### C9 -/

/-- C9: every steady-state `TmBeginFrame` call folds the raw (unscaled,
uncapped) frame duration into the FPS window: if the windowed duration after
folding reaches 1 s, `averageFps` becomes `frameCount / accumulatedDuration`
and the window (duration and count) is reset to zero; otherwise `averageFps`
is unchanged and the window keeps accumulating. -/
theorem beginFrame_fps_window (tm : TimeManager) (t : HighResTimeT)
    (hfirst : tm.firstFrame = false) :
    (1 ≤ tm.fpsAccumulator + deltaTimeOf tm t →
      (TmBeginFrame tm t).2.averageFps =
        ((tm.fpsFrameCount + 1 : ℕ) : ℚ) / (tm.fpsAccumulator + deltaTimeOf tm t) ∧
      (TmBeginFrame tm t).2.fpsAccumulator = 0 ∧
      (TmBeginFrame tm t).2.fpsFrameCount = 0) ∧
    (tm.fpsAccumulator + deltaTimeOf tm t < 1 →
      (TmBeginFrame tm t).2.averageFps = tm.averageFps ∧
      (TmBeginFrame tm t).2.fpsAccumulator = tm.fpsAccumulator + deltaTimeOf tm t ∧
      (TmBeginFrame tm t).2.fpsFrameCount = tm.fpsFrameCount + 1) := by
  rw [beginFrame_steady tm t hfirst]
  unfold steadyState UpdateFpsStats
  dsimp only
  constructor
  · intro h
    rw [if_pos h]
    exact ⟨rfl, rfl, rfl⟩
  · intro h
    rw [if_neg (not_le.mpr h)]
    exact ⟨rfl, rfl, rfl⟩

/-- A steady-state clock whose FPS window already holds 0.98 s over 49
frames, about to roll over. -/
def tmFps : TimeManager := { tmBasic with fpsAccumulator := 49/50, fpsFrameCount := 49 }

/-- C9 witness: the FPS-window contract instantiated at `tmFps` with a call
50 ms later (the window rolls past 1 s there). -/
theorem beginFrame_fps_window_witness :
    ((1 ≤ tmFps.fpsAccumulator + deltaTimeOf tmFps ⟨50000000⟩ →
      (TmBeginFrame tmFps ⟨50000000⟩).2.averageFps =
        ((tmFps.fpsFrameCount + 1 : ℕ) : ℚ) /
          (tmFps.fpsAccumulator + deltaTimeOf tmFps ⟨50000000⟩) ∧
      (TmBeginFrame tmFps ⟨50000000⟩).2.fpsAccumulator = 0 ∧
      (TmBeginFrame tmFps ⟨50000000⟩).2.fpsFrameCount = 0) ∧
    (tmFps.fpsAccumulator + deltaTimeOf tmFps ⟨50000000⟩ < 1 →
      (TmBeginFrame tmFps ⟨50000000⟩).2.averageFps = tmFps.averageFps ∧
      (TmBeginFrame tmFps ⟨50000000⟩).2.fpsAccumulator =
        tmFps.fpsAccumulator + deltaTimeOf tmFps ⟨50000000⟩ ∧
      (TmBeginFrame tmFps ⟨50000000⟩).2.fpsFrameCount = tmFps.fpsFrameCount + 1)) :=
  beginFrame_fps_window tmFps ⟨50000000⟩ rfl

/-! ### C10 -/

/-- C10: `TmResume` sets `timeScale` to the value saved by the most recent
`TmPause` (`timeScaleBeforePause`), which is 1 at construction and is written
only by `TmPause`; `TmSetTimeScale` (including setting 0, which makes
`TmIsPaused` report true) does not touch the saved value, so a `TmResume`
without an intervening `TmPause` discards the custom scale and installs the
saved one. -/
theorem resume_restores_saved_scale (tm : TimeManager) (cfg : TimeManagerConfig)
    (t0 : HighResTimeT) (s : ℚ) :
    (TmResume tm).timeScale = tm.timeScaleBeforePause ∧
    (TmPause tm).timeScaleBeforePause = tm.timeScale ∧
    (InitTimeManager cfg t0).timeScaleBeforePause = 1 ∧
    (TmSetTimeScale tm s).timeScaleBeforePause = tm.timeScaleBeforePause ∧
    (TmResume (TmSetTimeScale tm s)).timeScale = tm.timeScaleBeforePause ∧
    TmIsPaused (TmSetTimeScale tm 0) = true := by
  refine ⟨rfl, rfl, rfl, rfl, rfl, ?_⟩
  have h0 : (TmSetTimeScale tm 0).timeScale = 0 := by
    simp [TmSetTimeScale]
  simp only [TmIsPaused, h0, abs_zero, decide_eq_true_eq, dblEpsilon]
  positivity

/-! ### C2 -/

lemma tmBasic_accAfter : accAfterAdd tmBasic ⟨50000000⟩ = 1/20 := by
  unfold accAfterAdd scaledDeltaOf cappedDeltaOf deltaTimeOf tmBasic
  norm_num [max_def, min_def]

lemma fmod_one_twentieth : fmod (1/20 : ℚ) (1/100) = 0 := by
  unfold fmod truncQ
  norm_num

lemma tmBasic_remainder : remainderOf tmBasic ⟨50000000⟩ = 0 := by
  have hts : tmBasic.physicsTimeStep = 1/100 := rfl
  simp only [remainderOf, tmBasic_accAfter, hts, fmod_one_twentieth]
  norm_num

/-- C2 counterexample: at time step 0.01 s, `maxPhysicsSteps = 2` and 50 ms
elapsed, the call is lagging, the fmod-based post-call accumulator is 0, but
the pre-extraction accumulator (0.05) minus the capped returned step count
times the time step is 0.03 — the two policies do not agree when lagging. -/
theorem remainder_policy_counterexample :
    (TmBeginFrame tmBasic ⟨50000000⟩).1.lagging = true ∧
    (TmBeginFrame tmBasic ⟨50000000⟩).2.accumulator ≠
      accAfterAdd tmBasic ⟨50000000⟩ -
        ((TmBeginFrame tmBasic ⟨50000000⟩).1.physicsSteps : ℚ) * tmBasic.physicsTimeStep := by
  rw [beginFrame_steady tmBasic ⟨50000000⟩ rfl]
  refine ⟨tmBasic_lagging, ?_⟩
  rw [steadyState_accumulator, tmBasic_remainder, tmBasic_accAfter]
  show (0 : ℚ) ≠ 1/20 - (stepsOf tmBasic ⟨50000000⟩ : ℚ) * tmBasic.physicsTimeStep
  rw [tmBasic_steps]
  have hts : tmBasic.physicsTimeStep = 1/100 := rfl
  rw [hts]
  norm_num

/-- C2 (amended): in steady state, when the call is not lagging and the
`1e-12` epsilon does not promote an extra step (the epsilon-adjusted floor
equals the exact floor), the fmod-based post-call accumulator equals the
pre-extraction accumulator minus `steps * physicsTimeStep` with `steps` the
returned step count; the counterexample above shows the two policies do not
agree when `lagging` is true (the fmod remainder drops the backlog, explicit
subtraction of the capped count preserves it). -/
theorem remainder_equals_explicit_subtraction (tm : TimeManager) (t : HighResTimeT)
    (hfirst : tm.firstFrame = false) (hts : 0 < tm.physicsTimeStep)
    (hacc : 0 ≤ accAfterAdd tm t)
    (hfloor : stepsDOf tm t = ⌊accAfterAdd tm t / tm.physicsTimeStep⌋)
    (hlag : (TmBeginFrame tm t).1.lagging = false) :
    (TmBeginFrame tm t).2.accumulator =
      accAfterAdd tm t -
        ((TmBeginFrame tm t).1.physicsSteps : ℚ) * tm.physicsTimeStep := by
  rw [beginFrame_steady tm t hfirst] at hlag ⊢
  have hlag' : laggingOf tm t = false := hlag
  have hq : 0 ≤ accAfterAdd tm t / tm.physicsTimeStep := div_nonneg hacc hts.le
  have hfmod : fmod (accAfterAdd tm t) tm.physicsTimeStep =
      accAfterAdd tm t -
        tm.physicsTimeStep * (⌊accAfterAdd tm t / tm.physicsTimeStep⌋ : ℚ) := by
    unfold fmod truncQ
    rw [if_pos hq]
  have hnonneg : 0 ≤ fmod (accAfterAdd tm t) tm.physicsTimeStep :=
    fmod_nonneg_of_nonneg _ _ hacc hts
  have hrem : remainderOf tm t = fmod (accAfterAdd tm t) tm.physicsTimeStep := by
    unfold remainderOf
    rw [if_neg (not_lt.mpr hnonneg)]
  have hsteps : stepsOf tm t = (⌊accAfterAdd tm t / tm.physicsTimeStep⌋).toNat := by
    unfold stepsOf
    rw [hlag']
    simp [hfloor]
  have hfl : 0 ≤ ⌊accAfterAdd tm t / tm.physicsTimeStep⌋ := Int.floor_nonneg.mpr hq
  show (steadyState tm t).accumulator = _
  rw [steadyState_accumulator, hrem, hfmod]
  show _ = _ - (stepsOf tm t : ℚ) * tm.physicsTimeStep
  rw [hsteps]
  have hcast : ((⌊accAfterAdd tm t / tm.physicsTimeStep⌋.toNat : ℕ) : ℚ) =
      ((⌊accAfterAdd tm t / tm.physicsTimeStep⌋ : ℤ) : ℚ) := by
    exact_mod_cast Int.toNat_of_nonneg hfl
  rw [hcast]
  ring

lemma tmBasic15_acc : accAfterAdd tmBasic ⟨15000000⟩ = 3/200 := by
  unfold accAfterAdd scaledDeltaOf cappedDeltaOf deltaTimeOf tmBasic
  norm_num [max_def, min_def]

lemma tmBasic15_stepsD : stepsDOf tmBasic ⟨15000000⟩ = 1 := by
  unfold stepsDOf stepEpsilon
  rw [tmBasic15_acc]
  have hts : tmBasic.physicsTimeStep = 1/100 := rfl
  rw [hts]
  norm_num

lemma tmBasic15_floor : stepsDOf tmBasic ⟨15000000⟩ =
    ⌊accAfterAdd tmBasic ⟨15000000⟩ / tmBasic.physicsTimeStep⌋ := by
  rw [tmBasic15_stepsD, tmBasic15_acc]
  have hts : tmBasic.physicsTimeStep = 1/100 := rfl
  rw [hts]
  norm_num

lemma tmBasic15_lagging : laggingOf tmBasic ⟨15000000⟩ = false := by
  unfold laggingOf
  rw [tmBasic15_stepsD]
  decide

/-- C2 witness: the amended equality instantiated at `tmBasic` with 15 ms
elapsed (one whole step extracted, no lagging, no epsilon promotion). -/
theorem remainder_equals_explicit_subtraction_witness :
    (TmBeginFrame tmBasic ⟨15000000⟩).2.accumulator =
      accAfterAdd tmBasic ⟨15000000⟩ -
        ((TmBeginFrame tmBasic ⟨15000000⟩).1.physicsSteps : ℚ) * tmBasic.physicsTimeStep :=
  remainder_equals_explicit_subtraction tmBasic ⟨15000000⟩ rfl
    (by norm_num [tmBasic])
    (by rw [tmBasic15_acc]; norm_num)
    tmBasic15_floor
    (by rw [beginFrame_steady tmBasic ⟨15000000⟩ rfl]; exact tmBasic15_lagging)

end TimeManagerModel
